import Mathlib

/-!
Verification of the receipt-ingestion core of the `fm` household-finance
repository (files `app/parser.py`, `app/utils.py`, `app/db/database.py`,
`app/db/duplicate_check.py`, `app/db/utils.py`).

Python `Decimal` values are modelled by the executable fraction type `Dec`
(an integer numerator over a positive power-of-ten-shaped denominator; value
semantics, compared with `Dec.valEq` wherever the source compares Decimals).
The default decimal context (28 significant digits, round-half-even) is
modelled by `decAdjust`, applied to the results of `Decimal` division and
subtraction exactly where the source performs them.  `quantize` models
`Decimal.quantize(..., ROUND_HALF_UP)`.  Round-trips through Python `float`
(`float(Decimal(...))` followed by `Decimal(str(...))`, used by the source for
quantities and prices that fit easily in 15 significant digits) are modelled
as exact.
-/

namespace FM

/-- A `Decimal` value: `num / den`.  Every constructor below keeps `den`
positive.  Equality of values is `valEq`; the structural representation (like
a `Decimal`'s exponent) is never observed by the modelled code. -/
structure Dec where
  num : ℤ
  den : ℕ
deriving DecidableEq

/-- The rational value of a `Dec`. -/
def Dec.toRat (d : Dec) : ℚ := (d.num : ℚ) / (d.den : ℚ)

/-- Python `Decimal.__eq__`: numeric value equality. -/
def Dec.valEq (a b : Dec) : Prop := a.num * (b.den : ℤ) = b.num * (a.den : ℤ)

instance (a b : Dec) : Decidable (a.valEq b) := by
  unfold Dec.valEq; infer_instance

/-- Python `Decimal(...) > 0` (for positive denominators). -/
def Dec.isPos (d : Dec) : Prop := 0 < d.num

instance (d : Dec) : Decidable d.isPos := by
  unfold Dec.isPos; infer_instance

def Dec.ofInt (n : ℤ) : Dec := ⟨n, 1⟩

/-- `Decimal('100')`. -/
def decHundred : Dec := ⟨100, 1⟩

/-- `ROUND_HALF_UP` of the rational `x` to an integer: round to nearest, ties
away from zero (the mathematical specification used to validate
`roundHalfUpInt`). -/
def roundHalfUp (x : ℚ) : ℤ :=
  if 0 ≤ x then ⌊x + 1 / 2⌋ else -⌊-x + 1 / 2⌋

/-- `ROUND_HALF_UP` of `a / b` (for `0 < b`), in integer arithmetic
(`/` on `ℤ` is floor division for the non-negative operands used here). -/
def roundHalfUpInt (a : ℤ) (b : ℕ) : ℤ :=
  if 0 ≤ a then (2 * a + b) / (2 * b)
  else -((2 * (-a) + b) / (2 * b))

/-- `Decimal.quantize(Decimal('0.' ++ zeros ++ '1'), rounding=ROUND_HALF_UP)`:
quantize to `n` fractional digits, half-up. -/
def quantize (n : ℕ) (x : Dec) : Dec :=
  ⟨roundHalfUpInt (x.num * 10 ^ n) x.den, 10 ^ n⟩

/-- Number of decimal digits of `n` (fuel-based so that it reduces in the kernel). -/
def digLenAux : ℕ → ℕ → ℕ
  | 0, _ => 1
  | fuel + 1, n => if n < 10 then 1 else digLenAux fuel (n / 10) + 1

def digLen (n : ℕ) : ℕ := digLenAux n n

/-- Round `num / den` to the nearest natural number, ties to even (`den ≠ 0`). -/
def roundHalfEvenN (num den : ℕ) : ℕ :=
  let q := num / den
  let r := num % den
  if 2 * r < den then q
  else if den < 2 * r then q + 1
  else if q % 2 = 0 then q else q + 1

/-- The default `decimal` context applied to an arithmetic result: round to 28
significant decimal digits, half-even.  Values of at most 28 significant
digits are preserved exactly (only their representation is rescaled, which the
modelled code never observes). -/
def decAdjust (x : Dec) : Dec :=
  if x.num = 0 then ⟨0, 1⟩ else
  let p := x.num.natAbs
  let q := x.den
  let c : ℤ := (digLen p : ℤ) - (digLen q : ℤ)
  -- e = ⌊log10 |x|⌋, i.e. 10^e ≤ |x| < 10^(e+1)
  let e : ℤ :=
    if 0 ≤ c then (if 10 ^ c.toNat * q ≤ p then c else c - 1)
    else (if q ≤ 10 ^ (-c).toNat * p then c else c - 1)
  let s : ℤ := 27 - e
  let m : ℕ :=
    if 0 ≤ s then roundHalfEvenN (p * 10 ^ s.toNat) q
    else roundHalfEvenN p (q * 10 ^ (-s).toNat)
  let sgn : ℤ := if x.num < 0 then -1 else 1
  if 0 ≤ s then ⟨sgn * m, 10 ^ s.toNat⟩ else ⟨sgn * (m * 10 ^ (-s).toNat), 1⟩

/-- The unrounded quotient `a / b` as a fraction (denominator kept positive;
division by a zero value cannot be reached by the modelled code, which guards
its one data-dependent division with `quantity > 0`). -/
def rawDiv (a b : Dec) : Dec :=
  if 0 ≤ b.num then ⟨a.num * (b.den : ℤ), a.den * b.num.natAbs⟩
  else ⟨-(a.num * (b.den : ℤ)), a.den * b.num.natAbs⟩

/-- The exact difference `a - b` as a fraction. -/
def rawSub (a b : Dec) : Dec :=
  ⟨a.num * (b.den : ℤ) - b.num * (a.den : ℤ), a.den * b.den⟩

/-- `Decimal` division under the default context. -/
def decDiv (a b : Dec) : Dec := decAdjust (rawDiv a b)

/-- `Decimal` subtraction under the default context. -/
def decSub (a b : Dec) : Dec := decAdjust (rawSub a b)

/-! ## `safe_decimal` (app/utils.py lines 20-28) -/

/-- Round `a / b` (for `0 < b`) to the nearest integer, ties to even
(symmetric under negation, like Python `round`). -/
def roundHalfEvenInt (a : ℤ) (b : ℕ) : ℤ :=
  if 0 ≤ a then (roundHalfEvenN a.toNat b : ℤ)
  else -(roundHalfEvenN (-a).toNat b : ℤ)

/-- Python `round(x, 2)` on a float: CPython rounds the exact decimal value
of the double to 2 decimal places, ties to even, and returns the nearest
double — whose `str` is that 2-dp decimal for the magnitudes in scope. -/
def pyRound2 (x : Dec) : Dec := ⟨roundHalfEvenInt (x.num * 100) x.den, 100⟩

/-- A JSON-ish scalar as received by `safe_decimal`: Python `None`, an
integer, a float, or a string.  A `vFloat` carries the exact binary value of
the double (e.g. 12.125 is exactly `⟨97, 8⟩`; a non-representable literal
stands for its nearest double). -/
inductive PyVal where
  | vNone
  | vInt (n : ℤ)
  | vFloat (x : Dec)
  | vStr (s : String)
deriving DecidableEq

/-- Accumulate a digit list into a natural number. -/
def digitsToNat (l : List Char) : ℕ :=
  l.foldl (fun a c => 10 * a + (c.toNat - 48)) 0

/-- Python `str.strip()` of surrounding whitespace, as performed by the
`Decimal` string constructor. -/
def pyStrip (l : List Char) : List Char :=
  ((l.dropWhile Char.isWhitespace).reverse.dropWhile Char.isWhitespace).reverse

/-- Consume an optional leading sign; returns (isNegative, rest). -/
def parseSign : List Char → Bool × List Char
  | [] => (false, [])
  | c :: rest =>
    if c = '+' then (false, rest)
    else if c = '-' then (true, rest)
    else (false, c :: rest)

/-- Parse an unsigned decimal mantissa `digits [. digits]` (at least one digit
overall), as accepted by the `Decimal` string constructor. -/
def parseMantissa (l : List Char) : Option Dec :=
  let ip := l.takeWhile (fun c => c != '.')
  match l.dropWhile (fun c => c != '.') with
  | [] =>
    if !ip.isEmpty && ip.all Char.isDigit then some ⟨digitsToNat ip, 1⟩
    else Option.none
  | c :: fp =>
    if c = '.' && ip.all Char.isDigit && fp.all Char.isDigit
        && (!ip.isEmpty || !fp.isEmpty) then
      some ⟨digitsToNat ip * 10 ^ fp.length + digitsToNat fp, 10 ^ fp.length⟩
    else Option.none

/-- Parse the exponent part after the `e`/`E` marker: optional sign, digits. -/
def parseExpPart (l : List Char) : Option ℤ :=
  let sn := parseSign l
  if !sn.2.isEmpty && sn.2.all Char.isDigit then
    some (if sn.1 then -(digitsToNat sn.2 : ℤ) else (digitsToNat sn.2 : ℤ))
  else Option.none

def applyExp (m : Dec) (e : ℤ) : Dec :=
  if 0 ≤ e then ⟨m.num * 10 ^ e.toNat, m.den⟩ else ⟨m.num, m.den * 10 ^ (-e).toNat⟩

/-- The unsigned body of a `Decimal` numeric string: mantissa, optionally
followed by an `e`/`E` exponent marker and exponent. -/
def decParseBody (l : List Char) : Option Dec :=
  match l.dropWhile (fun c => c != 'e' && c != 'E') with
  | [] => parseMantissa (l.takeWhile (fun c => c != 'e' && c != 'E'))
  | c :: tail =>
    if c = 'e' || c = 'E' then
      match parseMantissa (l.takeWhile (fun c => c != 'e' && c != 'E')),
          parseExpPart tail with
      | some m, some e => some (applyExp m e)
      | _, _ => Option.none
    else Option.none

/-- The numeric-string grammar of the `Decimal` constructor:
`[ws] [sign] (digits [. digits] | . digits) [(e|E) [sign] digits] [ws]`.
`none` models `InvalidOperation`.  (The special values `NaN`/`Infinity` and
digit-group underscores are not modelled; no call site relies on them.) -/
def decOfString (s : String) : Option Dec :=
  let sn := parseSign (pyStrip s.data)
  match decParseBody sn.2 with
  | some v => some (if sn.1 then ⟨-v.num, v.den⟩ else v)
  | Option.none => Option.none

/-- `safe_decimal` (app/utils.py lines 20-28): total value normalizer.
`None` yields the default; for `float` and `int` values the source computes
`Decimal(str(round(value, 2)))` — the integer itself for an `int`, the value
rounded to 2 decimal places (ties to even) for a `float`; for a string, the
`Decimal` constructor is attempted and any
`InvalidOperation`/`ValueError`/`TypeError` yields the default. -/
def safe_decimal (v : PyVal) (dflt : Dec) : Dec :=
  match v with
  | .vNone => dflt
  | .vInt n => Dec.ofInt n
  | .vFloat x => pyRound2 x
  | .vStr s => (decOfString s).getD dflt

/-! ## The receipt document (§6 of the export format)

Each element of the `header`/`body` JSON arrays is a single-key object whose
key names the event type.  Only the fields the parsing pipeline reads are
carried; `Option` marks a key that may be absent, and string-valued fields
that the source immediately passes through `str(...)` are carried as the
resulting strings. -/

/-- A `sellLine` body event.  `quantity`/`price`/`total` are the raw JSON
values (`none` = key absent; the source defaults them to `1`, `0`, `0`). -/
structure SellLine where
  name : String
  vatId : String
  quantity : Option PyVal
  price : Option PyVal
  total : Option PyVal
  isStorno : Bool
deriving DecidableEq

/-- A `discountLine` body event (`vatId` may be absent: `discount.get('vatId')`). -/
structure DiscountLine where
  vatId : Option String
  base : Option PyVal
  value : Option PyVal
  isDiscount : Bool
  isStorno : Bool
deriving DecidableEq

/-- A body event.  `fiscalFooter` carries `str(fiscal.get('billNumber', ''))`;
`addLine` carries the `data` payload.  Event kinds the product loop and the
receipt-number resolution never read (`payment`, `sumInCurrency`,
`discountSummary`, `vatSummary`, unknown keys, or an `addLine` without a
`data` key) are collapsed into `otherEvent`. -/
inductive BodyEvent where
  | sell (s : SellLine)
  | discount (d : DiscountLine)
  | addLine (data : String)
  | fiscalFooter (billNumber : String)
  | otherEvent
deriving DecidableEq

/-- A header event: `headerData` carries `str(docNumber)` when the key chain
`headerData.docNumber` is present, else `none`; everything else
(`headerText`, ...) is `otherHeader`. -/
inductive HeaderEvent where
  | headerData (docNumber : Option String)
  | otherHeader
deriving DecidableEq

structure Doc where
  header : List HeaderEvent
  body : List BodyEvent
deriving DecidableEq

/-! ## Receipt-number resolution (app/parser.py lines 63-104) -/

/-- Step (a): first `fiscalFooter` whose `billNumber` string is non-empty
(the loop `break`s only when `bill_number` is truthy). -/
def fiscalBillNumber : List BodyEvent → String
  | [] => ""
  | .fiscalFooter b :: rest => if b ≠ "" then b else fiscalBillNumber rest
  | _ :: rest => fiscalBillNumber rest

/-- Step (b): the `str(docNumber)` of the first `headerData` item having a
`docNumber` key (the loop `break`s there even when that string is empty). -/
def headerDocNumber : List HeaderEvent → String
  | [] => ""
  | .headerData (some d) :: _ => d
  | _ :: rest => headerDocNumber rest

/-- Match a literal character sequence, returning the rest of the input. -/
def matchLit : List Char → List Char → Option (List Char)
  | [], l => some l
  | _ :: _, [] => Option.none
  | p :: ps, c :: cs => if c = p then matchLit ps cs else Option.none

/-- Try the regex `Nr transakcji:\s*<span[^>]*>(\d+)<` anchored at the head of
the input; on success return the captured digit group.  (`\s*` and `[^>]*`
cannot overlap their following literal, and `\d+` is followed by a
non-digit, so the greedy matches are exact.) -/
def matchTransAt (l : List Char) : Option (List Char) :=
  match matchLit ("Nr transakcji:".data) l with
  | Option.none => Option.none
  | some l1 =>
    let l2 := l1.dropWhile Char.isWhitespace
    match matchLit ("<span".data) l2 with
    | Option.none => Option.none
    | some l3 =>
      match l3.dropWhile (fun c => c != '>') with
      | '>' :: l5 =>
        let ds := l5.takeWhile Char.isDigit
        match ds, l5.drop ds.length with
        | [], _ => Option.none
        | _ :: _, '<' :: _ => some ds
        | _ :: _, _ => Option.none
      | _ => Option.none

/-- `re.search`: leftmost occurrence of the transaction-number pattern. -/
def searchTrans : List Char → Option (List Char)
  | [] => Option.none
  | c :: rest =>
    match matchTransAt (c :: rest) with
    | some ds => some ds
    | Option.none => searchTrans rest

/-- Step (c): captured digits of the first `addLine` whose `data` matches the
transaction-number pattern. -/
def transNumber : List BodyEvent → String
  | [] => ""
  | .addLine data :: rest =>
    match searchTrans data.data with
    | some ds => String.mk ds
    | Option.none => transNumber rest
  | _ :: rest => transNumber rest

/-- Decimal rendering of a natural number (fuel-based), modelling Python
`str(int(time.time()))` for the non-negative timestamp. -/
def natToStringAux : ℕ → ℕ → List Char
  | 0, _ => []
  | fuel + 1, n =>
    if n < 10 then [Char.ofNat (48 + n)]
    else natToStringAux fuel (n / 10) ++ [Char.ofNat (48 + n % 10)]

def natToString (n : ℕ) : String := String.mk (natToStringAux (n + 1) n)

/-- The receipt-number resolution of `process_receipt_file`
(app/parser.py lines 63-104): fiscal-footer bill number, header doc number,
transaction-number regex capture, then the Unix timestamp `now` as a string. -/
def resolveReceiptNumber (doc : Doc) (now : ℕ) : String :=
  let n1 := fiscalBillNumber doc.body
  if n1 ≠ "" then n1 else
  let n2 := headerDocNumber doc.header
  if n2 ≠ "" then n2 else
  let n3 := transNumber doc.body
  if n3 ≠ "" then n3 else
  natToString now

/-- First non-empty string in a list, with a default: the specification's
"strict priority order, first non-empty wins" chain. -/
def firstNonEmptyStr : List String → String → String
  | [], dflt => dflt
  | s :: rest, dflt => if s ≠ "" then s else firstNonEmptyStr rest dflt

/-! ## The product/discount loop of `parse_receipt`
(app/parser.py lines 661-706) -/

/-- The mutable `pending_product` dict.  `quantity` is `float(...)` of the
3-dp-quantized value (float round-trip modelled exact); the six monetary
fields are `Decimal`s until finalization. -/
structure RawProduct where
  product_name : String
  tax_type : String
  quantity : Dec
  unit_price_before : Dec
  total_price_before : Dec
  unit_discount : Dec
  total_discount : Dec
  unit_after_discount : Dec
  total_after_discount : Dec
deriving DecidableEq

/-- Python `str.rstrip()` (trailing whitespace). -/
def rstrip (s : String) : String :=
  String.mk (s.data.reverse.dropWhile Char.isWhitespace).reverse

/-- Python `s.rsplit(' ', 1)`: split at the last literal space, if any. -/
def rsplitLastSpace : List Char → Option (List Char × List Char)
  | [] => Option.none
  | c :: rest =>
    match rsplitLastSpace rest with
    | some (a, b) => some (c :: a, b)
    | Option.none => if c = ' ' then some ([], rest) else Option.none

/-- Lines 671-691: build the fresh `pending_product` from a `sellLine`.  The
trailing space-separated token of the rstripped name becomes the tax type when
it is exactly one alphabetic character; the quantity is quantized to 3 dp
half-up; unit/total prices are the minor-unit amounts divided by 100. -/
def sellToPending (s : SellLine) : RawProduct :=
  let nameWithVat := rstrip s.name
  let split := rsplitLastSpace nameWithVat.data
  let pn_tax : String × String :=
    match split with
    | some (before, after) =>
      if after.length = 1 ∧ after.all Char.isAlpha then
        (rstrip (String.mk before), String.mk after)
      else (nameWithVat, s.vatId)
    | Option.none => (nameWithVat, s.vatId)
  let qty := quantize 3 (safe_decimal (s.quantity.getD (.vInt 1)) (Dec.ofInt 0))
  let upb := decDiv (safe_decimal (s.price.getD (.vInt 0)) (Dec.ofInt 0)) decHundred
  let tpb := decDiv (safe_decimal (s.total.getD (.vInt 0)) (Dec.ofInt 0)) decHundred
  { product_name := pn_tax.1
    tax_type := pn_tax.2
    quantity := qty
    unit_price_before := upb
    total_price_before := tpb
    unit_discount := Dec.ofInt 0
    total_discount := Dec.ofInt 0
    unit_after_discount := upb
    total_after_discount := tpb }

/-- Lines 692-701: a `discountLine` against the pending product.  Applied only
when the `vatId` equals the pending tax type and `base/100` equals (as
`Decimal` values) the pending total-before; then `total_discount := value/100`,
`unit_discount := total_discount / quantity` when the quantity is positive,
and the after-discount fields become before minus the just-updated discounts,
all in `Decimal` context arithmetic. -/
def applyDiscountLine (d : DiscountLine) (p : RawProduct) : RawProduct :=
  if d.vatId = some p.tax_type ∧
      (decDiv (safe_decimal (d.base.getD (.vInt 0)) (Dec.ofInt 0)) decHundred).valEq
        p.total_price_before then
    let td := decDiv (safe_decimal (d.value.getD (.vInt 0)) (Dec.ofInt 0)) decHundred
    let ud := if p.quantity.isPos then decDiv td p.quantity else p.unit_discount
    { p with
      total_discount := td
      unit_discount := ud
      unit_after_discount := decSub p.unit_price_before ud
      total_after_discount := decSub p.total_price_before td }
  else p

/-- Lines 667-670 and 703-705: before a finalized product is appended, its six
monetary fields are quantized to 2 dp half-up (and converted to `float`,
modelled exact). -/
def finalizeProduct (p : RawProduct) : RawProduct :=
  { p with
    unit_price_before := quantize 2 p.unit_price_before
    total_price_before := quantize 2 p.total_price_before
    unit_discount := quantize 2 p.unit_discount
    total_discount := quantize 2 p.total_discount
    unit_after_discount := quantize 2 p.unit_after_discount
    total_after_discount := quantize 2 p.total_after_discount }

/-- One iteration of the body loop: a `sellLine` finalizes and appends any
pending product and becomes the new pending product; a `discountLine` is
applied to the pending product when one exists; every other event leaves the
state unchanged.  (`isStorno` is never consulted by this loop.) -/
def prodStep : Option RawProduct × List RawProduct → BodyEvent →
    Option RawProduct × List RawProduct
  | (pending, acc), .sell s =>
    let acc2 :=
      match pending with
      | some p => acc ++ [finalizeProduct p]
      | Option.none => acc
    (some (sellToPending s), acc2)
  | (some p, acc), .discount d => (some (applyDiscountLine d p), acc)
  | (pending, acc), _ => (pending, acc)

/-- The product list of `parse_receipt` (app/parser.py lines 661-706): fold
the body events, then finalize and append a still-pending product. -/
def parse_receipt_products (body : List BodyEvent) : List RawProduct :=
  let st := body.foldl prodStep ((Option.none : Option RawProduct), ([] : List RawProduct))
  match st.1 with
  | some p => st.2 ++ [finalizeProduct p]
  | Option.none => st.2

/-! ## Database state and the persistence pipeline

The relational store is modelled as lists of rows.  `transaction_scope`
(app/db/utils.py lines 10-29) stages all writes of the block and applies them
on a normal exit, discarding them when an exception escapes the block;
`insert_store` runs in its own session and commits immediately. -/

/-- The parsed receipt header fields the persistence steps read
(`receipt_header` after `parse_receipt`, `_extract_fiscal_data` and the
`safe_decimal` normalization of lines 140-141 of app/parser.py). -/
structure HeaderInfo where
  receipt_number : String
  date : String
  time : String
  final_price : ℚ
  total_discounts : ℚ
  store_name : String
  store_address : String
  postal_code : String
  store_city : String
  payment_name : String
  currency : String
deriving DecidableEq

structure StoreRow where
  store_id : ℕ
  store_name : String
  store_address : String
  postal_code : String
  store_city : String
deriving DecidableEq

structure ReceiptRow where
  receipt_id : ℕ
  store_id : ℕ
  receipt_number : String
  rdate : String
  rtime : String
  final_price : ℚ
  total_discounts : ℚ
  payment_name : String
  not_our_receipt : Bool
deriving DecidableEq

structure ProductRow where
  receipt_id : ℕ
  product_name : String
  quantity : Dec
  tax_type : Char
  unit_price_before : Dec
  total_price_before : Dec
  unit_discount : Dec
  total_discount : Dec
  unit_after_discount : Dec
  total_after_discount : Dec
deriving DecidableEq

structure DB where
  stores : List StoreRow
  receipts : List ReceiptRow
  products : List ProductRow
deriving DecidableEq

/-- The store-uniqueness key `(store_name, store_address, postal_code)`. -/
def storeKeyMatch (h : HeaderInfo) (r : StoreRow) : Bool :=
  r.store_name == h.store_name && r.store_address == h.store_address
    && r.postal_code == h.postal_code

/-- A fresh serial id. -/
def freshStoreId (stores : List StoreRow) : ℕ :=
  stores.foldl (fun m r => max m r.store_id) 0 + 1

def freshReceiptId (receipts : List ReceiptRow) : ℕ :=
  receipts.foldl (fun m r => max m r.receipt_id) 0 + 1

/-- `insert_store` (app/db/database.py lines 117-165): upsert on
`(store_name, store_address, postal_code)` — `ON CONFLICT DO UPDATE` refreshes
the city — returning the store id.  It runs in its own session with an
explicit commit, so its write is durable independently of the later receipt
transaction. -/
def insert_store (db : DB) (h : HeaderInfo) : DB × ℕ :=
  match db.stores.find? (storeKeyMatch h) with
  | some r =>
    ({ db with
        stores := db.stores.map fun q =>
          if q.store_id = r.store_id then { q with store_city := h.store_city } else q },
      r.store_id)
  | Option.none =>
    let sid := freshStoreId db.stores
    ({ db with
        stores := db.stores ++
          [{ store_id := sid, store_name := h.store_name,
             store_address := h.store_address, postal_code := h.postal_code,
             store_city := h.store_city }] },
      sid)

/-- The loose duplicate triple `(date, time, final_price)` of
`is_duplicate_receipt`; the query has no deleted filter (the `receipts`
schema in app/db/models.py has no deleted column). -/
def tripleMatch (d t : String) (f : ℚ) (r : ReceiptRow) : Bool :=
  r.rdate == d && r.rtime == t && decide (r.final_price = f)

/-- `is_duplicate_receipt` (app/db/duplicate_check.py lines 11-50).
`none` in a field models a missing dict key (the guard returns `False`);
`queryRaises` models a database error during the `COUNT(*)` query, caught and
converted to `False` ("assume it's not a duplicate to avoid data loss"). -/
def is_duplicate_receipt (receipts : List ReceiptRow) (queryRaises : Bool)
    (date : Option String) (time : Option String) (finalPrice : Option ℚ) : Bool :=
  match date, time, finalPrice with
  | some d, some t, some f =>
    if queryRaises then false
    else (receipts.filter (tripleMatch d t f)).length > 0
  | _, _, _ => false

/-- The receipt-uniqueness key `(store_id, receipt_number, date, time)`. -/
def receiptKeyMatch (storeId : ℕ) (h : HeaderInfo) (r : ReceiptRow) : Bool :=
  r.store_id == storeId && r.receipt_number == h.receipt_number
    && r.rdate == h.date && r.rtime == h.time

/-- `insert_receipt` (app/db/database.py lines 593-708), branch with a caller
session: a key-duplicate check, then the `INSERT ... RETURNING receipt_id`
without committing.  The whole body sits in a `try/except` that logs and
returns `None` on ANY exception; `raises` models a database error during
either statement (the staged state is then left unchanged). -/
def insert_receipt (staged : DB) (h : HeaderInfo) (storeId : ℕ)
    (paymentName : String) (notOur : Bool) (raises : Bool) : DB × Option ℕ :=
  if raises then (staged, Option.none)
  else if (staged.receipts.filter (receiptKeyMatch storeId h)).length > 0 then
    (staged, Option.none)
  else
    let rid := freshReceiptId staged.receipts
    ({ staged with
        receipts := staged.receipts ++
          [{ receipt_id := rid, store_id := storeId,
             receipt_number := h.receipt_number, rdate := h.date, rtime := h.time,
             final_price := h.final_price, total_discounts := h.total_discounts,
             payment_name := paymentName, not_our_receipt := notOur }] },
      some rid)

/-- Python `str.strip()` (both ends). -/
def pstripStr (s : String) : String :=
  String.mk (pyStrip s.data)

/-- One prepared row of `insert_products_bulk` (app/db/database.py lines
177-191): the name is stripped, the quantity re-quantized to 3 dp half-up,
and `str(p.get('tax_type', 'A'))[0]` takes the first character — raising
`IndexError` (modelled `none`) when the tax type is the empty string. -/
def bulkProductRow (receiptId : ℕ) (p : RawProduct) : Option ProductRow :=
  match p.tax_type.data with
  | [] => Option.none
  | c :: _ =>
    some
      { receipt_id := receiptId
        product_name := pstripStr p.product_name
        quantity := quantize 3 p.quantity
        tax_type := c
        unit_price_before := p.unit_price_before
        total_price_before := p.total_price_before
        unit_discount := p.unit_discount
        total_discount := p.total_discount
        unit_after_discount := p.unit_after_discount
        total_after_discount := p.total_after_discount }

/-- `insert_products_bulk` (app/db/database.py lines 167-198) with a caller
session: prepare every row, then one bulk insert into the staged state.
`none` models an exception (row preparation failing, or `stmtRaises` for a
database error in the bulk statement), which propagates to the caller. -/
def insert_products_bulk (staged : DB) (receiptId : ℕ)
    (ps : List RawProduct) (stmtRaises : Bool) : Option DB :=
  if ps.isEmpty then some staged
  else
    match ps.mapM (bulkProductRow receiptId) with
    | Option.none => Option.none
    | some rows =>
      if stmtRaises then Option.none
      else some { staged with products := staged.products ++ rows }

/-- Where the source file ends up: still in the upload folder, in `parsed`
(the "already processed" destination), or in `rejected`.
`_move_file_to_folder` (app/parser.py lines 475-480) keeps the original
file name. -/
inductive FileDest where
  | tocheck
  | parsed
  | rejected
deriving DecidableEq

/-- The result of `_process_payment_info` (app/parser.py lines 300-402):
either a payment name with a resolved user id, or `(None, None)` — payment
name in the ignore list, the operator declining the interactive assignment,
no users configured, or an internal error. -/
inductive PaymentRes where
  | assigned (paymentName : String) (userId : ℕ)
  | skipped
deriving DecidableEq

/-- The fallible environment of one `process_receipt_file` run: which
I/O and database steps raise, and the interactive payment outcome. -/
structure FileOracle where
  fileUnreadable : Bool
  jsonMalformed : Bool
  payment : PaymentRes
  notOur : Bool
  storeRaises : Bool
  dupRaises : Bool
  receiptRaises : Bool
  productsRaise : Bool
deriving DecidableEq

/-- Observable outcome of one run: final database, returned value, file
destination, file name (preserved by every move). -/
structure RunResult where
  db : DB
  ret : Option ℕ
  dest : FileDest
  fileName : String
deriving DecidableEq

/-- `process_receipt_file` (app/parser.py lines 47-210).  `h`/`prods` are the
parsed header and product list (parsing is modelled separately and is total).
Control flow, in source order: unreadable file or malformed JSON hits the
outer handlers (file rejected, `None`); a skipped payment returns `None`
without touching the file; `insert_store` commits on its own; then the
receipt+products transaction — a loose-duplicate hit or a `None` from
`insert_receipt` is a skip (file to `parsed`, staged writes dropped), an
exception from the bulk product insert rolls the staged writes back and
rejects the file, and otherwise the transaction commits. -/
def process_receipt_file (db0 : DB) (fileName : String) (h : HeaderInfo)
    (prods : List RawProduct) (o : FileOracle) : RunResult :=
  if o.fileUnreadable || o.jsonMalformed then
    ⟨db0, Option.none, .rejected, fileName⟩
  else
    match o.payment with
    | .skipped => ⟨db0, Option.none, .tocheck, fileName⟩
    | .assigned payName _uid =>
      if o.storeRaises then ⟨db0, Option.none, .rejected, fileName⟩
      else
        let dbSid := insert_store db0 h
        let db1 := dbSid.1
        let storeId := dbSid.2
        if is_duplicate_receipt db1.receipts o.dupRaises
            (some h.date) (some h.time) (some h.final_price) then
          ⟨db1, Option.none, .parsed, fileName⟩
        else
          match insert_receipt db1 h storeId payName o.notOur o.receiptRaises with
          | (_, Option.none) => ⟨db1, Option.none, .parsed, fileName⟩
          | (staged2, some rid) =>
            if prods.isEmpty then ⟨staged2, some rid, .parsed, fileName⟩
            else
              match insert_products_bulk staged2 rid prods o.productsRaise with
              | some staged3 => ⟨staged3, some rid, .parsed, fileName⟩
              | Option.none => ⟨db1, Option.none, .rejected, fileName⟩

/-- The batch driver `main` (app/parser.py lines 709-737): files are processed
sequentially, each against the database state the previous file left behind;
`process_receipt_file` never lets an exception escape, so every file of the
batch is attempted. -/
def processBatch (db0 : DB)
    (files : List (String × HeaderInfo × List RawProduct × FileOracle)) :
    DB × List RunResult :=
  files.foldl
    (fun st f =>
      let r := process_receipt_file st.1 f.1 f.2.1 f.2.2.1 f.2.2.2
      (r.db, st.2 ++ [r]))
    (db0, [])

/-! ## Concrete fixtures for the claim instances -/

/-- The end-to-end sell line of §8 of the specification. -/
def exSell : SellLine :=
  { name := "Mleko 3.2% A", vatId := "", quantity := some (.vStr "1"),
    price := some (.vInt 350), total := some (.vInt 350), isStorno := false }

/-- The same sell line flagged as storno (voided). -/
def exStornoSell : SellLine := { exSell with isStorno := true }

/-- §8's matching discount line. -/
def exDisc : DiscountLine :=
  { vatId := some "A", base := some (.vInt 350), value := some (.vInt 50),
    isDiscount := true, isStorno := false }

/-- A discount line whose declared base does not match the pending product. -/
def exDiscBad : DiscountLine := { exDisc with base := some (.vInt 340) }

/-- A sell line carrying the specification's rounding example as quantity. -/
def exQtySell : SellLine :=
  { name := "Jablka luz B", vatId := "", quantity := some (.vStr "12.345678"),
    price := some (.vInt 123), total := some (.vInt 1518), isStorno := false }

/-- A document whose only receipt-number source is the free-text line. -/
def exDocTrans : Doc :=
  { header := [.otherHeader],
    body := [.otherEvent, .addLine "Nr transakcji: <span>98765</span>"] }

/-- A parsed header. -/
def exHeader : HeaderInfo :=
  { receipt_number := "R1", date := "2024-07-01", time := "12:00:00",
    final_price := 100, total_discounts := 0, store_name := "Lidl",
    store_address := "ul. Testowa 2", postal_code := "00-002",
    store_city := "KRAKOW", payment_name := "Karta456", currency := "PLN" }

def dbEmpty : DB := { stores := [], receipts := [], products := [] }

/-- A stored receipt with `exHeader`'s loose-duplicate triple
`(date, time, final_price)` but a different uniqueness key. -/
def exOldReceipt : ReceiptRow :=
  { receipt_id := 1, store_id := 7, receipt_number := "OLD",
    rdate := "2024-07-01", rtime := "12:00:00", final_price := 100,
    total_discounts := 0, payment_name := "K", not_our_receipt := false }

def dbWithTriple : DB :=
  { stores := [], receipts := [exOldReceipt], products := [] }

/-- A plain parsed product line. -/
def exProduct : RawProduct :=
  { product_name := "Chleb", tax_type := "A", quantity := Dec.ofInt 1,
    unit_price_before := Dec.ofInt 5, total_price_before := Dec.ofInt 5,
    unit_discount := Dec.ofInt 0, total_discount := Dec.ofInt 0,
    unit_after_discount := Dec.ofInt 5, total_after_discount := Dec.ofInt 5 }

/-- The bulk-insert row prepared from `exProduct` for receipt 1. -/
def exRow : ProductRow :=
  { receipt_id := 1, product_name := "Chleb", quantity := ⟨1000, 1000⟩,
    tax_type := 'A', unit_price_before := Dec.ofInt 5,
    total_price_before := Dec.ofInt 5, unit_discount := Dec.ofInt 0,
    total_discount := Dec.ofInt 0, unit_after_discount := Dec.ofInt 5,
    total_after_discount := Dec.ofInt 5 }

/-- A clean oracle: readable file, well-formed JSON, payment resolved, no
database errors. -/
def oClean : FileOracle :=
  { fileUnreadable := false, jsonMalformed := false,
    payment := .assigned "Karta456" 1, notOur := false, storeRaises := false,
    dupRaises := false, receiptRaises := false, productsRaise := false }

/-! ## Claim-side (specification-worded) definitions -/

/-- The quantity is stored with exactly 3 fractional digits. -/
def has3dpQuantity (p : RawProduct) : Prop :=
  ∃ z : ℤ, p.quantity = ⟨z, 1000⟩

/-- All six monetary fields are stored with exactly 2 fractional digits. -/
def has2dpMoney (p : RawProduct) : Prop :=
  (∃ z : ℤ, p.unit_price_before = ⟨z, 100⟩) ∧
  (∃ z : ℤ, p.total_price_before = ⟨z, 100⟩) ∧
  (∃ z : ℤ, p.unit_discount = ⟨z, 100⟩) ∧
  (∃ z : ℤ, p.total_discount = ⟨z, 100⟩) ∧
  (∃ z : ℤ, p.unit_after_discount = ⟨z, 100⟩) ∧
  (∃ z : ℤ, p.total_after_discount = ⟨z, 100⟩)

/-- C3's wording of the application condition: the discount's tax-type code
equals the product's tax type and its declared base divided by 100 equals the
product's total-before price. -/
def discountApplies (d : DiscountLine) (p : RawProduct) : Prop :=
  d.vatId = some p.tax_type ∧
    (decDiv (safe_decimal (d.base.getD (.vInt 0)) (Dec.ofInt 0)) decHundred).valEq
      p.total_price_before

instance (d : DiscountLine) (p : RawProduct) : Decidable (discountApplies d p) := by
  unfold discountApplies; infer_instance

/-- C3's wording of an applied discount: `total_discount` is the value divided
by 100; `unit_discount` is that divided by the quantity when the quantity is
positive and otherwise left at 0; after-discount fields are before minus
discount. -/
def discountedProduct (d : DiscountLine) (p : RawProduct) : RawProduct :=
  let td := decDiv (safe_decimal (d.value.getD (.vInt 0)) (Dec.ofInt 0)) decHundred
  let ud := if p.quantity.isPos then decDiv td p.quantity else Dec.ofInt 0
  { p with
    total_discount := td
    unit_discount := ud
    unit_after_discount := decSub p.unit_price_before ud
    total_after_discount := decSub p.total_price_before td }

/-! ## Helper lemmas -/

theorem mem_dropWhile_of_not (p : Char → Bool) (c : Char) (hc : p c = false) :
    ∀ l : List Char, c ∈ l → c ∈ l.dropWhile p := by
  intro l
  induction l with
  | nil => intro h; exact absurd h (List.not_mem_nil c)
  | cons a t ih =>
    intro h
    rw [List.dropWhile_cons]
    by_cases hpa : p a = true
    · simp only [hpa, if_true]
      rcases List.mem_cons.mp h with rfl | ht
      · rw [hpa] at hc; exact absurd hc (by simp)
      · exact ih ht
    · simp only [Bool.not_eq_true] at hpa
      simp only [hpa, Bool.false_eq_true, if_false]
      exact h

theorem mem_pyStrip (c : Char) (hc : c.isWhitespace = false) (l : List Char)
    (h : c ∈ l) : c ∈ pyStrip l := by
  unfold pyStrip
  rw [List.mem_reverse]
  apply mem_dropWhile_of_not _ _ hc
  rw [List.mem_reverse]
  exact mem_dropWhile_of_not _ _ hc _ h

theorem parseSign_mem (l : List Char) (c : Char) (h : c ∈ l) :
    c ∈ (parseSign l).2 ∨ c = '+' ∨ c = '-' := by
  cases l with
  | nil => exact absurd h (List.not_mem_nil c)
  | cons a t =>
    simp only [parseSign]
    by_cases ha : a = '+'
    · subst ha
      simp only [if_pos rfl]
      rcases List.mem_cons.mp h with rfl | ht
      · exact Or.inr (Or.inl rfl)
      · exact Or.inl ht
    · rw [if_neg ha]
      by_cases hb : a = '-'
      · subst hb
        simp only [if_pos rfl]
        rcases List.mem_cons.mp h with rfl | ht
        · exact Or.inr (Or.inr rfl)
        · exact Or.inl ht
      · rw [if_neg hb]
        exact Or.inl h

theorem parseMantissa_chars {l : List Char} {v : Dec}
    (h : parseMantissa l = some v) :
    ∀ c ∈ l, c.isDigit = true ∨ c = '.' := by
  intro c hc
  have hdec := List.takeWhile_append_dropWhile (fun c => c != '.') l
  rw [← hdec] at hc
  rcases List.mem_append.mp hc with hip | hrest
  · unfold parseMantissa at h
    rcases hd : l.dropWhile (fun c => c != '.') with _ | ⟨c', fp⟩ <;>
      rw [hd] at h <;> simp only [] at h
    · split at h
      · rename_i hcond
        rw [Bool.and_eq_true] at hcond
        exact Or.inl (List.all_eq_true.mp hcond.2 c hip)
      · exact absurd h (by simp)
    · split at h
      · rename_i hcond
        simp only [Bool.and_eq_true, decide_eq_true_eq] at hcond
        exact Or.inl (List.all_eq_true.mp hcond.1.1.2 c hip)
      · exact absurd h (by simp)
  · unfold parseMantissa at h
    rcases hd : l.dropWhile (fun c => c != '.') with _ | ⟨c', fp⟩ <;>
      rw [hd] at h <;> simp only [] at h
    · rw [hd] at hrest; exact absurd hrest (List.not_mem_nil c)
    · rw [hd] at hrest
      split at h
      · rename_i hcond
        simp only [Bool.and_eq_true, decide_eq_true_eq] at hcond
        rcases List.mem_cons.mp hrest with rfl | hfp
        · exact Or.inr hcond.1.1.1
        · exact Or.inl (List.all_eq_true.mp hcond.1.2 c hfp)
      · exact absurd h (by simp)

theorem parseExpPart_chars {l : List Char} {e : ℤ}
    (h : parseExpPart l = some e) :
    ∀ c ∈ l, c.isDigit = true ∨ c = '+' ∨ c = '-' := by
  intro c hc
  unfold parseExpPart at h
  dsimp only [] at h
  rcases parseSign_mem l c hc with hm | hpm
  · split at h
    · rename_i hcond
      rw [Bool.and_eq_true] at hcond
      exact Or.inl (List.all_eq_true.mp hcond.2 c hm)
    · exact absurd h (by simp)
  · exact Or.inr hpm

theorem decParseBody_chars {l : List Char} {v : Dec}
    (h : decParseBody l = some v) :
    ∀ c ∈ l, c.isDigit = true ∨ c = '+' ∨ c = '-' ∨ c = '.' ∨ c = 'e' ∨ c = 'E' := by
  intro c hc
  have hdec := List.takeWhile_append_dropWhile (fun c => c != 'e' && c != 'E') l
  unfold decParseBody at h
  rcases hd : l.dropWhile (fun c => c != 'e' && c != 'E') with _ | ⟨c', tail⟩ <;>
    rw [hd] at h <;> (try dsimp only [] at h)
  · rw [hd, List.append_nil] at hdec
    rw [← hdec] at hc
    rcases parseMantissa_chars h c hc with h1 | h1
    · exact Or.inl h1
    · exact Or.inr (Or.inr (Or.inr (Or.inl h1)))
  · rw [hd] at hdec
    rw [← hdec] at hc
    rcases List.mem_append.mp hc with hmant | hrest
    · split at h
      · rcases hm : parseMantissa (l.takeWhile (fun c => c != 'e' && c != 'E'))
            with _ | m <;> rw [hm] at h <;> (try dsimp only [] at h)
        · simp at h
        · rcases parseMantissa_chars hm c hmant with h1 | h1
          · exact Or.inl h1
          · exact Or.inr (Or.inr (Or.inr (Or.inl h1)))
      · simp at h
    · rcases List.mem_cons.mp hrest with rfl | htail
      · split at h
        · rename_i hEE
          rw [Bool.or_eq_true, decide_eq_true_eq, decide_eq_true_eq] at hEE
          rcases hEE with rfl | rfl
          · exact Or.inr (Or.inr (Or.inr (Or.inr (Or.inl rfl))))
          · exact Or.inr (Or.inr (Or.inr (Or.inr (Or.inr rfl))))
        · simp at h
      · split at h
        · rcases hm : parseMantissa (l.takeWhile (fun c => c != 'e' && c != 'E'))
              with _ | m <;> rw [hm] at h <;> (try dsimp only [] at h)
          · simp at h
          · rcases he : parseExpPart tail with _ | ev <;>
              rw [he] at h <;> (try dsimp only [] at h)
            · simp at h
            · rcases parseExpPart_chars he c htail with h1 | h1 | h1
              · exact Or.inl h1
              · exact Or.inr (Or.inl h1)
              · exact Or.inr (Or.inr (Or.inl h1))
        · simp at h

theorem decOfString_chars {s : String} {v : Dec} (h : decOfString s = some v) :
    ∀ c ∈ s.data, c.isWhitespace = true ∨ c.isDigit = true ∨
      c = '+' ∨ c = '-' ∨ c = '.' ∨ c = 'e' ∨ c = 'E' := by
  intro c hc
  by_cases hw : c.isWhitespace = true
  · exact Or.inl hw
  rw [Bool.not_eq_true] at hw
  have hc0 : c ∈ pyStrip s.data := mem_pyStrip c hw s.data hc
  unfold decOfString at h
  dsimp only [] at h
  rcases parseSign_mem (pyStrip s.data) c hc0 with hc1 | hpm
  · rcases hb : decParseBody (parseSign (pyStrip s.data)).2 with _ | w <;>
      rw [hb] at h <;> (try dsimp only [] at h)
    · simp at h
    · rcases decParseBody_chars hb c hc1 with h1 | h1 | h1 | h1 | h1 | h1
      · exact Or.inr (Or.inl h1)
      · exact Or.inr (Or.inr (Or.inl h1))
      · exact Or.inr (Or.inr (Or.inr (Or.inl h1)))
      · exact Or.inr (Or.inr (Or.inr (Or.inr (Or.inl h1))))
      · exact Or.inr (Or.inr (Or.inr (Or.inr (Or.inr (Or.inl h1)))))
      · exact Or.inr (Or.inr (Or.inr (Or.inr (Or.inr (Or.inr h1)))))
  · rcases hpm with rfl | rfl
    · exact Or.inr (Or.inr (Or.inl rfl))
    · exact Or.inr (Or.inr (Or.inr (Or.inl rfl)))

theorem decOfString_comma {s : String} (h : ',' ∈ s.data) :
    decOfString s = Option.none := by
  rcases hd : decOfString s with _ | v
  · rfl
  · have := decOfString_chars hd ',' h
    rcases this with hw | hd2 | he
    · exact absurd hw (by decide)
    · exact absurd hd2 (by decide)
    · rcases he with h1 | h1 | h1 | h1 | h1 <;> exact absurd h1 (by decide)

theorem natToString_ne_empty (n : ℕ) : natToString n ≠ "" := by
  unfold natToString
  intro h
  have hdata : natToStringAux (n + 1) n = [] := congrArg String.data h
  unfold natToStringAux at hdata
  split at hdata
  · exact List.noConfusion hdata
  · exact absurd hdata (by simp)

theorem roundHalfUpInt_exact (k : ℤ) (b : ℕ) (hb : 0 < b) :
    roundHalfUpInt (k * b) b = k := by
  have hb2 : (2 * (b : ℤ)) ≠ 0 := by positivity
  have hlt : (b : ℤ) < 2 * b := by omega
  have hb0 : (0 : ℤ) ≤ b := by positivity
  unfold roundHalfUpInt
  by_cases hk : 0 ≤ k * (b : ℤ)
  · rw [if_pos hk]
    rw [show 2 * (k * (b : ℤ)) + b = b + 2 * b * k by ring]
    rw [Int.add_mul_ediv_left _ _ hb2]
    rw [Int.ediv_eq_zero_of_lt hb0 hlt]
    ring
  · rw [if_neg hk]
    rw [show 2 * -(k * (b : ℤ)) + b = b + 2 * b * (-k) by ring]
    rw [Int.add_mul_ediv_left _ _ hb2]
    rw [Int.ediv_eq_zero_of_lt hb0 hlt]
    ring

theorem quantize_idempotent (n : ℕ) (x : Dec) :
    quantize n (quantize n x) = quantize n x := by
  show (⟨roundHalfUpInt (roundHalfUpInt (x.num * 10 ^ n) x.den * 10 ^ n) (10 ^ n),
      10 ^ n⟩ : Dec) = ⟨roundHalfUpInt (x.num * 10 ^ n) x.den, 10 ^ n⟩
  have hc : ((10 : ℤ)) ^ n = (((10 ^ n : ℕ)) : ℤ) := by push_cast; ring
  congr 1
  rw [hc, roundHalfUpInt_exact _ _ (by positivity)]

theorem insert_store_receipts (db : DB) (h : HeaderInfo) :
    (insert_store db h).1.receipts = db.receipts := by
  unfold insert_store
  rcases db.stores.find? (storeKeyMatch h) with _ | r <;> rfl

theorem insert_store_products (db : DB) (h : HeaderInfo) :
    (insert_store db h).1.products = db.products := by
  unfold insert_store
  rcases db.stores.find? (storeKeyMatch h) with _ | r <;> rfl

theorem filter_length_pos_iff {α : Type} (p : α → Bool) (l : List α) :
    0 < (l.filter p).length ↔ ∃ a ∈ l, p a = true := by
  rw [List.length_pos_iff_ne_nil]
  constructor
  · intro hne
    by_contra hno
    push_neg at hno
    exact hne (List.filter_eq_nil_iff.mpr fun a ha => by
      simp only [Bool.not_eq_true]
      exact Bool.not_eq_true _ ▸ hno a ha)
  · rintro ⟨a, ha, hpa⟩ hnil
    exact absurd hpa (by
      have := List.filter_eq_nil_iff.mp hnil a ha
      simp only [Bool.not_eq_true] at this
      simp [this])

theorem applyDiscountLine_quantity (d : DiscountLine) (p : RawProduct) :
    (applyDiscountLine d p).quantity = p.quantity := by
  unfold applyDiscountLine
  split <;> rfl

theorem prodStep_sell_none (acc : List RawProduct) (s : SellLine) :
    prodStep (Option.none, acc) (.sell s) = (some (sellToPending s), acc) := rfl

theorem prodStep_sell_some (p : RawProduct) (acc : List RawProduct) (s : SellLine) :
    prodStep (some p, acc) (.sell s) =
      (some (sellToPending s), acc ++ [finalizeProduct p]) := rfl

theorem prodStep_discount_none (acc : List RawProduct) (d : DiscountLine) :
    prodStep (Option.none, acc) (.discount d) = (Option.none, acc) := rfl

theorem prodStep_discount_some (p : RawProduct) (acc : List RawProduct)
    (d : DiscountLine) :
    prodStep (some p, acc) (.discount d) = (some (applyDiscountLine d p), acc) := rfl

theorem prodStep_addLine (pend : Option RawProduct) (acc : List RawProduct)
    (data : String) : prodStep (pend, acc) (.addLine data) = (pend, acc) := by
  rcases pend with _ | p <;> rfl

theorem prodStep_fiscal (pend : Option RawProduct) (acc : List RawProduct)
    (b : String) : prodStep (pend, acc) (.fiscalFooter b) = (pend, acc) := by
  rcases pend with _ | p <;> rfl

theorem prodStep_otherEvent (pend : Option RawProduct) (acc : List RawProduct) :
    prodStep (pend, acc) .otherEvent = (pend, acc) := by
  rcases pend with _ | p <;> rfl

theorem quantize2_has2dp (y : Dec) : ∃ z : ℤ, quantize 2 y = ⟨z, 100⟩ :=
  ⟨roundHalfUpInt (y.num * 10 ^ 2) y.den, rfl⟩

theorem finalize_has2dpMoney (p : RawProduct) :
    has2dpMoney (finalizeProduct p) :=
  ⟨quantize2_has2dp _, quantize2_has2dp _, quantize2_has2dp _,
    quantize2_has2dp _, quantize2_has2dp _, quantize2_has2dp _⟩

theorem finalize_quantity (p : RawProduct) :
    (finalizeProduct p).quantity = p.quantity := rfl

theorem sellToPending_has3dp (s : SellLine) : has3dpQuantity (sellToPending s) :=
  ⟨roundHalfUpInt
      ((safe_decimal (s.quantity.getD (.vInt 1)) (Dec.ofInt 0)).num * 10 ^ 3)
      (safe_decimal (s.quantity.getD (.vInt 1)) (Dec.ofInt 0)).den, rfl⟩

/-- Invariant of the product fold: accumulated products have 3-dp quantities
and 2-dp money; the pending product has a 3-dp quantity. -/
theorem prodStep_fold_inv (body : List BodyEvent) :
    ∀ st : Option RawProduct × List RawProduct,
      (∀ p ∈ st.2, has3dpQuantity p ∧ has2dpMoney p) →
      (∀ p, st.1 = some p → has3dpQuantity p) →
      (∀ p ∈ (body.foldl prodStep st).2, has3dpQuantity p ∧ has2dpMoney p) ∧
      (∀ p, (body.foldl prodStep st).1 = some p → has3dpQuantity p) := by
  induction body with
  | nil => exact fun st hacc hpend => ⟨hacc, hpend⟩
  | cons e rest ih =>
    intro st hacc hpend
    rcases st with ⟨pending, acc⟩
    rw [List.foldl_cons]
    apply ih
    · -- accumulated products after one step
      cases e with
      | sell s =>
        rcases pending with _ | p
        · rw [prodStep_sell_none]; exact hacc
        · rw [prodStep_sell_some]
          intro q hq
          rcases List.mem_append.mp hq with hm | hm
          · exact hacc q hm
          · rcases List.mem_singleton.mp hm with rfl
            refine ⟨?_, finalize_has2dpMoney p⟩
            rcases hpend p rfl with ⟨z, hz⟩
            exact ⟨z, by rw [finalize_quantity, hz]⟩
      | discount d =>
        rcases pending with _ | p
        · rw [prodStep_discount_none]; exact hacc
        · rw [prodStep_discount_some]; exact hacc
      | addLine data => rw [prodStep_addLine]; exact hacc
      | fiscalFooter b => rw [prodStep_fiscal]; exact hacc
      | otherEvent => rw [prodStep_otherEvent]; exact hacc
    · -- pending product after one step
      cases e with
      | sell s =>
        rcases pending with _ | p
        · rw [prodStep_sell_none]
          intro q hq
          rcases Option.some.inj hq with rfl
          exact sellToPending_has3dp s
        · rw [prodStep_sell_some]
          intro q hq
          rcases Option.some.inj hq with rfl
          exact sellToPending_has3dp s
      | discount d =>
        rcases pending with _ | p
        · rw [prodStep_discount_none]; exact hpend
        · rw [prodStep_discount_some]
          intro q hq
          rcases Option.some.inj hq with rfl
          rcases hpend p rfl with ⟨z, hz⟩
          exact ⟨z, by rw [applyDiscountLine_quantity, hz]⟩
      | addLine data => rw [prodStep_addLine]; exact hpend
      | fiscalFooter b => rw [prodStep_fiscal]; exact hpend
      | otherEvent => rw [prodStep_otherEvent]; exact hpend

/-- Every product emitted by the parser has a 3-dp quantity and 2-dp money. -/
theorem parse_products_rounded (body : List BodyEvent) :
    ∀ p ∈ parse_receipt_products body, has3dpQuantity p ∧ has2dpMoney p := by
  intro p hp
  unfold parse_receipt_products at hp
  dsimp only [] at hp
  have hinv := prodStep_fold_inv body (Option.none, [])
    (fun q hq => absurd hq (List.not_mem_nil q))
    (fun q hq => Option.noConfusion hq)
  rcases hfold : (body.foldl prodStep (Option.none, [])).1 with _ | q <;>
    rw [hfold] at hp <;> dsimp only [] at hp
  · exact hinv.1 p hp
  · rcases List.mem_append.mp hp with hm | hm
    · exact hinv.1 p hm
    · rcases List.mem_singleton.mp hm with rfl
      refine ⟨?_, finalize_has2dpMoney q⟩
      rcases hinv.2 q hfold with ⟨z, hz⟩
      exact ⟨z, by rw [finalize_quantity, hz]⟩

/-! ## Pipeline helper lemmas -/

theorem insert_receipt_raises (staged : DB) (h : HeaderInfo) (sid : ℕ)
    (pn : String) (no : Bool) :
    insert_receipt staged h sid pn no true = (staged, Option.none) := by
  unfold insert_receipt
  rw [if_pos rfl]

theorem insert_receipt_no_dup (staged : DB) (h : HeaderInfo) (sid : ℕ)
    (pn : String) (no : Bool)
    (hkey : staged.receipts.filter (receiptKeyMatch sid h) = []) :
    insert_receipt staged h sid pn no false =
      ({ staged with
          receipts := staged.receipts ++
            [{ receipt_id := freshReceiptId staged.receipts, store_id := sid,
               receipt_number := h.receipt_number, rdate := h.date,
               rtime := h.time, final_price := h.final_price,
               total_discounts := h.total_discounts, payment_name := pn,
               not_our_receipt := no }] },
        some (freshReceiptId staged.receipts)) := by
  unfold insert_receipt
  rw [if_neg (by simp)]
  rw [hkey]
  rw [if_neg (by simp)]

theorem insert_products_bulk_raises (staged : DB) (rid : ℕ)
    (ps : List RawProduct) (hne : ps ≠ []) :
    insert_products_bulk staged rid ps true = Option.none := by
  unfold insert_products_bulk
  rw [if_neg (by simp [List.isEmpty_iff, hne])]
  rcases hm : ps.mapM (bulkProductRow rid) with _ | rows <;> rfl

theorem is_duplicate_raises (receipts : List ReceiptRow) (d t : String) (f : ℚ) :
    is_duplicate_receipt receipts true (some d) (some t) (some f) = false := rfl

theorem process_ioerror (db0 : DB) (name : String) (h : HeaderInfo)
    (prods : List RawProduct) (o : FileOracle)
    (hio : (o.fileUnreadable || o.jsonMalformed) = true) :
    process_receipt_file db0 name h prods o =
      ⟨db0, Option.none, .rejected, name⟩ := by
  unfold process_receipt_file
  rw [if_pos hio]

theorem process_payment_skip (db0 : DB) (name : String) (h : HeaderInfo)
    (prods : List RawProduct) (o : FileOracle)
    (h1 : o.fileUnreadable = false) (h2 : o.jsonMalformed = false)
    (hp : o.payment = .skipped) :
    process_receipt_file db0 name h prods o =
      ⟨db0, Option.none, .tocheck, name⟩ := by
  unfold process_receipt_file
  rw [if_neg (by simp [h1, h2])]
  rw [hp]

theorem process_dup_skip (db0 : DB) (name : String) (h : HeaderInfo)
    (prods : List RawProduct) (pn : String) (uid : ℕ) (o : FileOracle)
    (h1 : o.fileUnreadable = false) (h2 : o.jsonMalformed = false)
    (hp : o.payment = .assigned pn uid) (hs : o.storeRaises = false)
    (hdup : is_duplicate_receipt db0.receipts o.dupRaises
      (some h.date) (some h.time) (some h.final_price) = true) :
    process_receipt_file db0 name h prods o =
      ⟨(insert_store db0 h).1, Option.none, .parsed, name⟩ := by
  unfold process_receipt_file
  rw [if_neg (by simp [h1, h2])]
  rw [hp]
  (try dsimp only [])
  rw [hs]
  rw [if_neg (by simp)]
  (try dsimp only [])
  rw [insert_store_receipts]
  rw [if_pos hdup]

theorem process_receipt_insert_raises (db0 : DB) (name : String)
    (h : HeaderInfo) (prods : List RawProduct) (pn : String) (uid : ℕ)
    (o : FileOracle)
    (h1 : o.fileUnreadable = false) (h2 : o.jsonMalformed = false)
    (hp : o.payment = .assigned pn uid) (hs : o.storeRaises = false)
    (hdup : is_duplicate_receipt db0.receipts o.dupRaises
      (some h.date) (some h.time) (some h.final_price) = false)
    (hrr : o.receiptRaises = true) :
    process_receipt_file db0 name h prods o =
      ⟨(insert_store db0 h).1, Option.none, .parsed, name⟩ := by
  unfold process_receipt_file
  rw [if_neg (by simp [h1, h2])]
  rw [hp]
  (try dsimp only [])
  rw [hs]
  rw [if_neg (by simp)]
  (try dsimp only [])
  rw [insert_store_receipts]
  rw [if_neg (by simp [hdup])]
  rw [hrr, insert_receipt_raises]

theorem process_products_raise (db0 : DB) (name : String) (h : HeaderInfo)
    (prods : List RawProduct) (pn : String) (uid : ℕ) (o : FileOracle)
    (h1 : o.fileUnreadable = false) (h2 : o.jsonMalformed = false)
    (hp : o.payment = .assigned pn uid) (hs : o.storeRaises = false)
    (hdup : is_duplicate_receipt db0.receipts o.dupRaises
      (some h.date) (some h.time) (some h.final_price) = false)
    (hrr : o.receiptRaises = false)
    (hkey : db0.receipts.filter (receiptKeyMatch (insert_store db0 h).2 h) = [])
    (hne : prods ≠ []) (hpr : o.productsRaise = true) :
    process_receipt_file db0 name h prods o =
      ⟨(insert_store db0 h).1, Option.none, .rejected, name⟩ := by
  have hkey2 : ((insert_store db0 h).1).receipts.filter
      (receiptKeyMatch (insert_store db0 h).2 h) = [] := by
    rw [insert_store_receipts]; exact hkey
  unfold process_receipt_file
  rw [if_neg (by simp [h1, h2])]
  rw [hp]
  (try dsimp only [])
  rw [hs]
  rw [if_neg (by simp)]
  (try dsimp only [])
  rw [insert_store_receipts]
  rw [if_neg (by simp [hdup])]
  rw [hrr, insert_receipt_no_dup _ _ _ _ _ hkey2]
  (try dsimp only [])
  rw [if_neg (by simp [List.isEmpty_iff, hne])]
  rw [hpr, insert_products_bulk_raises _ _ _ hne]

theorem process_insert_success (db0 : DB) (name : String) (h : HeaderInfo)
    (pn : String) (uid : ℕ) (o : FileOracle)
    (h1 : o.fileUnreadable = false) (h2 : o.jsonMalformed = false)
    (hp : o.payment = .assigned pn uid) (hs : o.storeRaises = false)
    (hdup : is_duplicate_receipt db0.receipts o.dupRaises
      (some h.date) (some h.time) (some h.final_price) = false)
    (hrr : o.receiptRaises = false)
    (hkey : db0.receipts.filter (receiptKeyMatch (insert_store db0 h).2 h) = []) :
    process_receipt_file db0 name h [] o =
      ⟨{ (insert_store db0 h).1 with
          receipts := db0.receipts ++
            [{ receipt_id := freshReceiptId db0.receipts,
               store_id := (insert_store db0 h).2,
               receipt_number := h.receipt_number, rdate := h.date,
               rtime := h.time, final_price := h.final_price,
               total_discounts := h.total_discounts, payment_name := pn,
               not_our_receipt := o.notOur }] },
        some (freshReceiptId db0.receipts), .parsed, name⟩ := by
  have hkey2 : ((insert_store db0 h).1).receipts.filter
      (receiptKeyMatch (insert_store db0 h).2 h) = [] := by
    rw [insert_store_receipts]; exact hkey
  unfold process_receipt_file
  rw [if_neg (by simp [h1, h2])]
  rw [hp]
  (try dsimp only [])
  rw [hs]
  rw [if_neg (by simp)]
  (try dsimp only [])
  rw [insert_store_receipts]
  rw [if_neg (by simp [hdup])]
  rw [hrr, insert_receipt_no_dup _ _ _ _ _ hkey2]
  (try dsimp only [])
  rw [insert_store_receipts]
  rw [if_pos (show (([] : List RawProduct).isEmpty = true) from rfl)]

theorem insert_store_new (db0 : DB) (h : HeaderInfo)
    (hnew : db0.stores.find? (storeKeyMatch h) = Option.none) :
    insert_store db0 h =
      ({ db0 with
          stores := db0.stores ++
            [{ store_id := freshStoreId db0.stores, store_name := h.store_name,
               store_address := h.store_address, postal_code := h.postal_code,
               store_city := h.store_city }] },
        freshStoreId db0.stores) := by
  unfold insert_store
  rw [hnew]

theorem processBatch_length (db0 : DB)
    (files : List (String × HeaderInfo × List RawProduct × FileOracle)) :
    (processBatch db0 files).2.length = files.length := by
  suffices hgen : ∀ st : DB × List RunResult,
      (files.foldl
        (fun st f =>
          let r := process_receipt_file st.1 f.1 f.2.1 f.2.2.1 f.2.2.2
          (r.db, st.2 ++ [r])) st).2.length = st.2.length + files.length by
    have := hgen (db0, [])
    unfold processBatch
    rw [this]
    simp
  induction files with
  | nil => intro st; simp
  | cons f rest ih =>
    intro st
    rw [List.foldl_cons]
    rw [ih]
    simp
    omega

/-! ## Claim C6 -/

/-- C6 counterexample: the numeric string `"12,5"` with a comma decimal
separator is NOT converted to its numeric value 12.5 — `safe_decimal` returns
the supplied default instead (`Decimal('12,5')` raises `InvalidOperation`,
which the function swallows) — and the float 12.345678 is NOT converted to
its numeric value either: `round(value, 2)` first rounds it to 12.35. -/
theorem c6_counterexample :
    safe_decimal (PyVal.vStr "12,5") (Dec.ofInt 0) = Dec.ofInt 0 ∧
    ¬ (safe_decimal (PyVal.vStr "12,5") (Dec.ofInt 0)).valEq ⟨125, 10⟩ ∧
    ¬ (safe_decimal (PyVal.vFloat ⟨12345678, 1000000⟩)
        (Dec.ofInt 0)).valEq ⟨12345678, 1000000⟩ := by
  exact ⟨by decide, by decide, by decide⟩

/-- C6 (amended): `safe_decimal` is total and never raises; `None` yields the
default and integers convert to their numeric value, but a float is first
rounded to 2 decimal places by `round(value, 2)` (ties to even) rather than
converted exactly — 12.345678 becomes 12.35, and the exactly representable
tie 12.125 (= 97/8) becomes 12.12; dot-decimal numeric strings convert to
their numeric value, while every string containing a comma is a conversion
failure and yields the default (comma normalization is done by callers such
as app/utils.py line 223, not by `safe_decimal`). -/
theorem c6_safe_decimal_total (dflt : Dec) (n : ℤ) (x : Dec) (s : String)
    (hcomma : ',' ∈ s.data) :
    safe_decimal PyVal.vNone dflt = dflt ∧
    safe_decimal (PyVal.vInt n) dflt = Dec.ofInt n ∧
    safe_decimal (PyVal.vFloat x) dflt =
      ⟨roundHalfEvenInt (x.num * 100) x.den, 100⟩ ∧
    safe_decimal (PyVal.vFloat ⟨12345678, 1000000⟩) dflt = ⟨1235, 100⟩ ∧
    ¬ (safe_decimal (PyVal.vFloat ⟨12345678, 1000000⟩) dflt).valEq
        ⟨12345678, 1000000⟩ ∧
    safe_decimal (PyVal.vFloat ⟨97, 8⟩) dflt = ⟨1212, 100⟩ ∧
    safe_decimal (PyVal.vStr s) dflt = dflt ∧
    safe_decimal (PyVal.vStr "12.5") dflt = ⟨125, 10⟩ := by
  refine ⟨rfl, rfl, rfl, rfl,
    show ¬ (pyRound2 ⟨12345678, 1000000⟩).valEq ⟨12345678, 1000000⟩ from
      by decide,
    rfl, ?_, ?_⟩
  · show (decOfString s).getD dflt = dflt
    rw [decOfString_comma hcomma]
    rfl
  · show (decOfString "12.5").getD dflt = ⟨125, 10⟩
    rw [show decOfString "12.5" = some ⟨125, 10⟩ from by decide]
    rfl

/-- C6 witness: the amended theorem at the default 7, integer -3, the float
12.125 and the comma string `"12,5"`. -/
theorem c6_witness :
    safe_decimal PyVal.vNone (Dec.ofInt 7) = Dec.ofInt 7 ∧
    safe_decimal (PyVal.vInt (-3)) (Dec.ofInt 7) = Dec.ofInt (-3) ∧
    safe_decimal (PyVal.vFloat ⟨97, 8⟩) (Dec.ofInt 7) =
      ⟨roundHalfEvenInt ((Dec.mk 97 8).num * 100) (Dec.mk 97 8).den, 100⟩ ∧
    safe_decimal (PyVal.vFloat ⟨12345678, 1000000⟩) (Dec.ofInt 7)
      = ⟨1235, 100⟩ ∧
    ¬ (safe_decimal (PyVal.vFloat ⟨12345678, 1000000⟩) (Dec.ofInt 7)).valEq
        ⟨12345678, 1000000⟩ ∧
    safe_decimal (PyVal.vFloat ⟨97, 8⟩) (Dec.ofInt 7) = ⟨1212, 100⟩ ∧
    safe_decimal (PyVal.vStr "12,5") (Dec.ofInt 7) = Dec.ofInt 7 ∧
    safe_decimal (PyVal.vStr "12.5") (Dec.ofInt 7) = ⟨125, 10⟩ :=
  c6_safe_decimal_total (Dec.ofInt 7) (-3) ⟨97, 8⟩ "12,5" (by decide)

/-! ## Claim C7 -/

/-- C7: quantization at the parser/persistence boundaries. Half-up
quantization is idempotent; every product emitted by `parse_receipt` stores
the quantity with exactly 3 and all monetary fields with exactly 2 fractional
digits; the bulk-insert row re-quantizes the quantity to 3 dp half-up; and the
quantity string "12.345678" normalizes to 12.346. -/
theorem c7_rounding (n : ℕ) (x : Dec) (body : List BodyEvent) (p : RawProduct)
    (hp : p ∈ parse_receipt_products body) (rid : ℕ) (q : RawProduct)
    (row : ProductRow) (hrow : bulkProductRow rid q = some row) :
    quantize n (quantize n x) = quantize n x ∧
    (has3dpQuantity p ∧ has2dpMoney p) ∧
    row.quantity = quantize 3 q.quantity ∧
    (sellToPending exQtySell).quantity = ⟨12346, 1000⟩ := by
  refine ⟨quantize_idempotent n x, parse_products_rounded body p hp, ?_, by decide⟩
  unfold bulkProductRow at hrow
  rcases hq : q.tax_type.data with _ | ⟨c, rest⟩ <;> rw [hq] at hrow <;>
    (try dsimp only [] at hrow)
  · exact absurd hrow (by simp)
  · rcases Option.some.inj hrow with rfl
    rfl

/-- C7 witness: the theorem at the parsed singleton body holding the
12.345678-quantity sell line and at the bulk row of `exProduct`. -/
theorem c7_witness :
    quantize 2 (quantize 2 ⟨125, 10⟩) = quantize 2 ⟨125, 10⟩ ∧
    (has3dpQuantity (finalizeProduct (sellToPending exQtySell)) ∧
      has2dpMoney (finalizeProduct (sellToPending exQtySell))) ∧
    exRow.quantity = quantize 3 exProduct.quantity ∧
    (sellToPending exQtySell).quantity = ⟨12346, 1000⟩ :=
  c7_rounding 2 ⟨125, 10⟩ [BodyEvent.sell exQtySell]
    (finalizeProduct (sellToPending exQtySell)) (by decide) 1 exProduct exRow
    (by decide)

/-! ## Claim C5 -/

/-- C5: the resolved receipt number is the first non-empty candidate of the
strict priority chain — fiscal-footer bill number, header doc number,
transaction-number regex capture, Unix timestamp string — hence always
non-empty; and a document whose only source is the free-text line
`Nr transakcji: <span>98765</span>` resolves to "98765". -/
theorem c5_receipt_number_priority (doc : Doc) (now : ℕ) :
    resolveReceiptNumber doc now =
      firstNonEmptyStr
        [fiscalBillNumber doc.body, headerDocNumber doc.header,
          transNumber doc.body] (natToString now) ∧
    resolveReceiptNumber doc now ≠ "" ∧
    resolveReceiptNumber exDocTrans 1700000000 = "98765" := by
  refine ⟨rfl, ?_, by decide⟩
  unfold resolveReceiptNumber
  dsimp only []
  by_cases h1 : fiscalBillNumber doc.body ≠ ""
  · rw [if_pos h1]; exact h1
  · rw [if_neg h1]
    by_cases h2 : headerDocNumber doc.header ≠ ""
    · rw [if_pos h2]; exact h2
    · rw [if_neg h2]
      by_cases h3 : transNumber doc.body ≠ ""
      · rw [if_pos h3]; exact h3
      · rw [if_neg h3]; exact natToString_ne_empty now

/-! ## Claim C2 -/

/-- C2 (code bug): the `parse_receipt` of app/parser.py — the one whose output
`process_receipt_file` persists — never reads `isStorno`, so a storno'd
sell line still yields a product line: the parsed product list of a body
holding only the voided Mleko sell line is non-empty. (The alternative
`parse_receipt` in app/utils.py lines 208-238 skips storno lines, and §8 of
the specification requires the exclusion, so the persisted-path behavior is
the slip.) -/
theorem c2_storno_line_not_excluded :
    parse_receipt_products [BodyEvent.sell exStornoSell] =
      [{ product_name := "Mleko 3.2%", tax_type := "A", quantity := ⟨1000, 1000⟩,
         unit_price_before := ⟨350, 100⟩, total_price_before := ⟨350, 100⟩,
         unit_discount := ⟨0, 100⟩, total_discount := ⟨0, 100⟩,
         unit_after_discount := ⟨350, 100⟩, total_after_discount := ⟨350, 100⟩ }] ∧
    parse_receipt_products [BodyEvent.sell exStornoSell] ≠ [] := by
  exact ⟨by decide, by decide⟩

/-! ## Claim C3 -/

/-- C3: a discount event is applied to the pending product exactly when its
tax-type code matches and its base/100 equals the total-before price; the
applied fields follow the value/100, divide-by-quantity-when-positive and
before-minus-discount formulas; a failed match leaves the pending product
(and its zero discount fields) unchanged; a discount with no pending product
is ignored; non-sell/non-discount events do not disturb the pairing, and a
new sell event finalizes the previous pending product (quantizing every
monetary field to 2 dp half-up). -/
theorem c3_discount_application
    (d dBad : DiscountLine) (p : RawProduct) (acc : List RawProduct)
    (pend : Option RawProduct) (s : SellLine) (data bill : String)
    (hfresh1 : p.total_discount = Dec.ofInt 0)
    (hfresh2 : p.unit_discount = Dec.ofInt 0)
    (happly : discountApplies d p)
    (hdrop : ¬ discountApplies dBad p) :
    prodStep (some p, acc) (.discount d) = (some (discountedProduct d p), acc) ∧
    prodStep (some p, acc) (.discount dBad) = (some p, acc) ∧
    prodStep (Option.none, acc) (.discount d) = (Option.none, acc) ∧
    prodStep (pend, acc) (.addLine data) = (pend, acc) ∧
    prodStep (pend, acc) (.fiscalFooter bill) = (pend, acc) ∧
    prodStep (pend, acc) .otherEvent = (pend, acc) ∧
    prodStep (some p, acc) (.sell s) =
      (some (sellToPending s), acc ++ [finalizeProduct p]) ∧
    (finalizeProduct (discountedProduct d p)).total_discount
      = quantize 2 (discountedProduct d p).total_discount ∧
    (finalizeProduct (discountedProduct d p)).unit_discount
      = quantize 2 (discountedProduct d p).unit_discount ∧
    (finalizeProduct (discountedProduct d p)).unit_after_discount
      = quantize 2 (decSub p.unit_price_before (discountedProduct d p).unit_discount) ∧
    (finalizeProduct (discountedProduct d p)).total_after_discount
      = quantize 2 (decSub p.total_price_before (discountedProduct d p).total_discount) := by
  have key : applyDiscountLine d p = discountedProduct d p := by
    unfold applyDiscountLine discountedProduct
    have h := happly
    unfold discountApplies at h
    rw [if_pos h]
    dsimp only []
    by_cases hq : p.quantity.isPos
    · rw [if_pos hq, if_pos hq]
    · rw [if_neg hq, if_neg hq, hfresh2]
  have keyBad : applyDiscountLine dBad p = p := by
    unfold applyDiscountLine
    have h := hdrop
    unfold discountApplies at h
    rw [if_neg h]
  refine ⟨?_, ?_, prodStep_discount_none acc d, prodStep_addLine pend acc data,
    prodStep_fiscal pend acc bill, prodStep_otherEvent pend acc,
    prodStep_sell_some p acc s, rfl, rfl, rfl, rfl⟩
  · rw [prodStep_discount_some, key]
  · rw [prodStep_discount_some, keyBad]

/-- C3 witness: the theorem at §8's Mleko sell line, its matching discount and
a non-matching discount. -/
theorem c3_witness :
    prodStep (some (sellToPending exSell), []) (.discount exDisc)
      = (some (discountedProduct exDisc (sellToPending exSell)), []) ∧
    prodStep (some (sellToPending exSell), []) (.discount exDiscBad)
      = (some (sellToPending exSell), []) ∧
    prodStep (Option.none, []) (.discount exDisc) = (Option.none, []) ∧
    prodStep (some (sellToPending exSell), []) (.addLine "x")
      = (some (sellToPending exSell), []) ∧
    prodStep (some (sellToPending exSell), []) (.fiscalFooter "y")
      = (some (sellToPending exSell), []) ∧
    prodStep (some (sellToPending exSell), []) .otherEvent
      = (some (sellToPending exSell), []) ∧
    prodStep (some (sellToPending exSell), []) (.sell exSell)
      = (some (sellToPending exSell), [finalizeProduct (sellToPending exSell)]) ∧
    (finalizeProduct (discountedProduct exDisc (sellToPending exSell))).total_discount
      = quantize 2 (discountedProduct exDisc (sellToPending exSell)).total_discount ∧
    (finalizeProduct (discountedProduct exDisc (sellToPending exSell))).unit_discount
      = quantize 2 (discountedProduct exDisc (sellToPending exSell)).unit_discount ∧
    (finalizeProduct (discountedProduct exDisc (sellToPending exSell))).unit_after_discount
      = quantize 2 (decSub (sellToPending exSell).unit_price_before
          (discountedProduct exDisc (sellToPending exSell)).unit_discount) ∧
    (finalizeProduct (discountedProduct exDisc (sellToPending exSell))).total_after_discount
      = quantize 2 (decSub (sellToPending exSell).total_price_before
          (discountedProduct exDisc (sellToPending exSell)).total_discount) := by
  have h := c3_discount_application exDisc exDiscBad (sellToPending exSell) []
    (some (sellToPending exSell)) exSell "x" "y" (by decide) (by decide)
    (by decide) (by decide)
  exact ⟨h.1, h.2.1, h.2.2.1, h.2.2.2.1, h.2.2.2.2.1, h.2.2.2.2.2.1,
    by simpa using h.2.2.2.2.2.2.1, h.2.2.2.2.2.2.2.1, h.2.2.2.2.2.2.2.2.1,
    h.2.2.2.2.2.2.2.2.2.1, h.2.2.2.2.2.2.2.2.2.2⟩

/-! ## Claim C1 -/

/-- C1 counterexample: with an empty database, when the product bulk-insert
raises, the run fails (rejected, `None`), yet a Store row written during the
attempt remains visible — the store insert is NOT included in the rollback. -/
theorem c1_counterexample :
    (process_receipt_file dbEmpty "r1.json" exHeader [exProduct]
        { oClean with productsRaise := true }).db.stores ≠ [] ∧
    (process_receipt_file dbEmpty "r1.json" exHeader [exProduct]
        { oClean with productsRaise := true }).dest = FileDest.rejected ∧
    (process_receipt_file dbEmpty "r1.json" exHeader [exProduct]
        { oClean with productsRaise := true }).ret = Option.none := by
  exact ⟨by decide, by decide, by decide⟩

/-- C1 (amended): when the product bulk-insert raises, the Receipt and
Product writes of the attempt are rolled back (receipts and products are
unchanged), the run reports a failure (`None`, file rejected, original name
kept) — but the Store row upserted before the transaction was committed in
its own session and remains visible. -/
theorem c1_rollback_spares_store (db0 : DB) (name : String) (h : HeaderInfo)
    (prods : List RawProduct) (pn : String) (uid : ℕ) (o : FileOracle)
    (h1 : o.fileUnreadable = false) (h2 : o.jsonMalformed = false)
    (hp : o.payment = .assigned pn uid) (hs : o.storeRaises = false)
    (hdup : is_duplicate_receipt db0.receipts o.dupRaises
      (some h.date) (some h.time) (some h.final_price) = false)
    (hrr : o.receiptRaises = false)
    (hkey : db0.receipts.filter (receiptKeyMatch (insert_store db0 h).2 h) = [])
    (hne : prods ≠ []) (hpr : o.productsRaise = true)
    (hnew : db0.stores.find? (storeKeyMatch h) = Option.none) :
    (process_receipt_file db0 name h prods o).db.receipts = db0.receipts ∧
    (process_receipt_file db0 name h prods o).db.products = db0.products ∧
    (process_receipt_file db0 name h prods o).ret = Option.none ∧
    (process_receipt_file db0 name h prods o).dest = FileDest.rejected ∧
    (process_receipt_file db0 name h prods o).fileName = name ∧
    (process_receipt_file db0 name h prods o).db.stores = db0.stores ++
      [{ store_id := freshStoreId db0.stores, store_name := h.store_name,
         store_address := h.store_address, postal_code := h.postal_code,
         store_city := h.store_city }] := by
  rw [process_products_raise db0 name h prods pn uid o h1 h2 hp hs hdup hrr
    hkey hne hpr]
  rw [insert_store_new db0 h hnew]
  exact ⟨rfl, rfl, rfl, rfl, rfl, rfl⟩

/-- C1 witness: the amended theorem at the concrete failing run of the
counterexample. -/
theorem c1_witness :
    (process_receipt_file dbEmpty "r1.json" exHeader [exProduct]
        { oClean with productsRaise := true }).db.receipts = dbEmpty.receipts ∧
    (process_receipt_file dbEmpty "r1.json" exHeader [exProduct]
        { oClean with productsRaise := true }).db.products = dbEmpty.products ∧
    (process_receipt_file dbEmpty "r1.json" exHeader [exProduct]
        { oClean with productsRaise := true }).ret = Option.none ∧
    (process_receipt_file dbEmpty "r1.json" exHeader [exProduct]
        { oClean with productsRaise := true }).dest = FileDest.rejected ∧
    (process_receipt_file dbEmpty "r1.json" exHeader [exProduct]
        { oClean with productsRaise := true }).fileName = "r1.json" ∧
    (process_receipt_file dbEmpty "r1.json" exHeader [exProduct]
        { oClean with productsRaise := true }).db.stores = dbEmpty.stores ++
      [{ store_id := freshStoreId dbEmpty.stores,
         store_name := exHeader.store_name,
         store_address := exHeader.store_address,
         postal_code := exHeader.postal_code,
         store_city := exHeader.store_city }] :=
  c1_rollback_spares_store dbEmpty "r1.json" exHeader [exProduct] "Karta456" 1
    { oClean with productsRaise := true } rfl rfl rfl rfl (by decide) rfl
    (by decide) (by decide) rfl (by decide)

/-! ## Claim C4 -/

/-- C4 counterexample: a new store with a receipt whose
`(date, time, final_price)` triple matches a stored receipt is skipped as a
duplicate (`None`, file to already-processed) — but the database has changed:
the store upsert committed before the duplicate check wrote a Store row, so
"writes no rows" fails. -/
theorem c4_counterexample :
    (process_receipt_file dbWithTriple "r2.json" exHeader [] oClean).ret
      = Option.none ∧
    (process_receipt_file dbWithTriple "r2.json" exHeader [] oClean).dest
      = FileDest.parsed ∧
    (process_receipt_file dbWithTriple "r2.json" exHeader [] oClean).db
      ≠ dbWithTriple := by
  exact ⟨by decide, by decide, by decide⟩

/-- C4 (amended): a receipt is a duplicate exactly when a stored receipt has
the same `(date, time, final_price)` triple (the schema has no deleted flag,
so every stored receipt counts); the pipeline then returns `None`, routes the
file to the already-processed destination with its name kept, and writes no
Receipt or Product rows — but the Store upsert committed before the check may
already have written a store row. -/
theorem c4_duplicate_triple_skip
    (receipts : List ReceiptRow) (dd tt : String) (ff : ℚ)
    (db0 : DB) (name : String) (h : HeaderInfo) (prods : List RawProduct)
    (pn : String) (uid : ℕ) (o : FileOracle)
    (h1 : o.fileUnreadable = false) (h2 : o.jsonMalformed = false)
    (hp : o.payment = .assigned pn uid) (hs : o.storeRaises = false)
    (hdup : is_duplicate_receipt db0.receipts o.dupRaises
      (some h.date) (some h.time) (some h.final_price) = true) :
    (is_duplicate_receipt receipts false (some dd) (some tt) (some ff) = true ↔
      ∃ rr ∈ receipts, tripleMatch dd tt ff rr = true) ∧
    (process_receipt_file db0 name h prods o).ret = Option.none ∧
    (process_receipt_file db0 name h prods o).dest = FileDest.parsed ∧
    (process_receipt_file db0 name h prods o).fileName = name ∧
    (process_receipt_file db0 name h prods o).db.receipts = db0.receipts ∧
    (process_receipt_file db0 name h prods o).db.products = db0.products := by
  constructor
  · unfold is_duplicate_receipt
    dsimp only []
    (try rw [if_neg (by simp)])
    rw [decide_eq_true_eq]
    exact filter_length_pos_iff _ _
  · rw [process_dup_skip db0 name h prods pn uid o h1 h2 hp hs hdup]
    exact ⟨rfl, rfl, rfl, insert_store_receipts db0 h,
      insert_store_products db0 h⟩

/-- C4 witness: the amended theorem at the concrete duplicate-triple run. -/
theorem c4_witness :
    (is_duplicate_receipt [exOldReceipt] false (some "2024-07-01")
        (some "12:00:00") (some 100) = true ↔
      ∃ rr ∈ [exOldReceipt],
        tripleMatch "2024-07-01" "12:00:00" 100 rr = true) ∧
    (process_receipt_file dbWithTriple "r2.json" exHeader [] oClean).ret
      = Option.none ∧
    (process_receipt_file dbWithTriple "r2.json" exHeader [] oClean).dest
      = FileDest.parsed ∧
    (process_receipt_file dbWithTriple "r2.json" exHeader [] oClean).fileName
      = "r2.json" ∧
    (process_receipt_file dbWithTriple "r2.json" exHeader [] oClean).db.receipts
      = dbWithTriple.receipts ∧
    (process_receipt_file dbWithTriple "r2.json" exHeader [] oClean).db.products
      = dbWithTriple.products :=
  c4_duplicate_triple_skip [exOldReceipt] "2024-07-01" "12:00:00" 100
    dbWithTriple "r2.json" exHeader [] "Karta456" 1 oClean rfl rfl rfl rfl
    (by decide)

/-! ## Claim C8 -/

/-- C8 counterexample: a payment-name skip (ignore list or declined
assignment) returns `None` but leaves the source file in the upload folder —
it is NOT moved to the already-processed destination. -/
theorem c8_counterexample :
    (process_receipt_file dbEmpty "f.json" exHeader []
        { oClean with payment := .skipped }).ret = Option.none ∧
    (process_receipt_file dbEmpty "f.json" exHeader []
        { oClean with payment := .skipped }).dest = FileDest.tocheck ∧
    (process_receipt_file dbEmpty "f.json" exHeader []
        { oClean with payment := .skipped }).dest ≠ FileDest.parsed := by
  exact ⟨by decide, by decide, by decide⟩

/-- C8 (amended): every skip outcome returns `None` without surfacing an
exception, and writes no receipt or product rows; a duplicate-receipt skip
moves the file to the already-processed destination with its original name,
but an ignore-list or declined-assignment skip leaves the file in the upload
folder. -/
theorem c8_skip_outcomes (db0 : DB) (name : String) (h : HeaderInfo)
    (prods : List RawProduct) (o1 o2 : FileOracle) (pn : String) (uid : ℕ)
    (ha1 : o1.fileUnreadable = false) (ha2 : o1.jsonMalformed = false)
    (ha3 : o1.payment = .skipped)
    (hb1 : o2.fileUnreadable = false) (hb2 : o2.jsonMalformed = false)
    (hb3 : o2.payment = .assigned pn uid) (hb4 : o2.storeRaises = false)
    (hbdup : is_duplicate_receipt db0.receipts o2.dupRaises
      (some h.date) (some h.time) (some h.final_price) = true) :
    process_receipt_file db0 name h prods o1 =
      ⟨db0, Option.none, .tocheck, name⟩ ∧
    (process_receipt_file db0 name h prods o2).ret = Option.none ∧
    (process_receipt_file db0 name h prods o2).dest = FileDest.parsed ∧
    (process_receipt_file db0 name h prods o2).fileName = name ∧
    (process_receipt_file db0 name h prods o2).db.receipts = db0.receipts ∧
    (process_receipt_file db0 name h prods o2).db.products = db0.products := by
  refine ⟨process_payment_skip db0 name h prods o1 ha1 ha2 ha3, ?_⟩
  rw [process_dup_skip db0 name h prods pn uid o2 hb1 hb2 hb3 hb4 hbdup]
  exact ⟨rfl, rfl, rfl, insert_store_receipts db0 h,
    insert_store_products db0 h⟩

/-- C8 witness: the amended theorem at a payment-skip run and a
duplicate-skip run. -/
theorem c8_witness :
    process_receipt_file dbWithTriple "f.json" exHeader []
        { oClean with payment := .skipped } =
      ⟨dbWithTriple, Option.none, .tocheck, "f.json"⟩ ∧
    (process_receipt_file dbWithTriple "f.json" exHeader [] oClean).ret
      = Option.none ∧
    (process_receipt_file dbWithTriple "f.json" exHeader [] oClean).dest
      = FileDest.parsed ∧
    (process_receipt_file dbWithTriple "f.json" exHeader [] oClean).fileName
      = "f.json" ∧
    (process_receipt_file dbWithTriple "f.json" exHeader [] oClean).db.receipts
      = dbWithTriple.receipts ∧
    (process_receipt_file dbWithTriple "f.json" exHeader [] oClean).db.products
      = dbWithTriple.products :=
  c8_skip_outcomes dbWithTriple "f.json" exHeader []
    { oClean with payment := .skipped } oClean "Karta456" 1 rfl rfl rfl rfl rfl
    rfl rfl (by decide)

/-! ## Claim C9 -/

/-- C9 counterexample: a database error inside `insert_receipt` (for example
a connection failure) is swallowed: the run is treated as a skip — `None`
returned, file moved to the already-processed destination — instead of being
rejected as the claim requires. -/
theorem c9_counterexample :
    (process_receipt_file dbEmpty "f.json" exHeader [exProduct]
        { oClean with receiptRaises := true }).dest = FileDest.parsed ∧
    (process_receipt_file dbEmpty "f.json" exHeader [exProduct]
        { oClean with receiptRaises := true }).dest ≠ FileDest.rejected ∧
    (process_receipt_file dbEmpty "f.json" exHeader [exProduct]
        { oClean with receiptRaises := true }).ret = Option.none := by
  exact ⟨by decide, by decide, by decide⟩

/-- C9 (amended): malformed JSON and unreadable files route the file to
rejected with no writes; an exception in the product bulk-insert rolls the
transaction back in full (receipts and products unchanged) and routes the
file to rejected; the batch driver still attempts every file.  But an
exception inside `insert_receipt` is caught there, surfaces as `None`, and is
treated as a skip routed to the already-processed destination. -/
theorem c9_fatal_error_routing (db0 : DB) (name : String) (h : HeaderInfo)
    (prods : List RawProduct) (pn : String) (uid : ℕ)
    (o1 o2 o3 o4 : FileOracle) (dbB : DB)
    (files : List (String × HeaderInfo × List RawProduct × FileOracle))
    (hj : o1.jsonMalformed = true)
    (hf : o2.fileUnreadable = true)
    (hc1 : o3.fileUnreadable = false) (hc2 : o3.jsonMalformed = false)
    (hc3 : o3.payment = .assigned pn uid) (hc4 : o3.storeRaises = false)
    (hc5 : is_duplicate_receipt db0.receipts o3.dupRaises
      (some h.date) (some h.time) (some h.final_price) = false)
    (hc6 : o3.receiptRaises = false)
    (hc7 : db0.receipts.filter (receiptKeyMatch (insert_store db0 h).2 h) = [])
    (hc8 : prods ≠ []) (hc9 : o3.productsRaise = true)
    (hd1 : o4.fileUnreadable = false) (hd2 : o4.jsonMalformed = false)
    (hd3 : o4.payment = .assigned pn uid) (hd4 : o4.storeRaises = false)
    (hd5 : is_duplicate_receipt db0.receipts o4.dupRaises
      (some h.date) (some h.time) (some h.final_price) = false)
    (hd6 : o4.receiptRaises = true) :
    process_receipt_file db0 name h prods o1 =
      ⟨db0, Option.none, .rejected, name⟩ ∧
    process_receipt_file db0 name h prods o2 =
      ⟨db0, Option.none, .rejected, name⟩ ∧
    (process_receipt_file db0 name h prods o3).dest = FileDest.rejected ∧
    (process_receipt_file db0 name h prods o3).ret = Option.none ∧
    (process_receipt_file db0 name h prods o3).db.receipts = db0.receipts ∧
    (process_receipt_file db0 name h prods o3).db.products = db0.products ∧
    process_receipt_file db0 name h prods o4 =
      ⟨(insert_store db0 h).1, Option.none, .parsed, name⟩ ∧
    (processBatch dbB files).2.length = files.length := by
  have ho3 := process_products_raise db0 name h prods pn uid o3 hc1 hc2 hc3
    hc4 hc5 hc6 hc7 hc8 hc9
  refine ⟨process_ioerror db0 name h prods o1 (by simp [hj]),
    process_ioerror db0 name h prods o2 (by simp [hf]), ?_, ?_, ?_, ?_,
    process_receipt_insert_raises db0 name h prods pn uid o4 hd1 hd2 hd3 hd4
      hd5 hd6,
    processBatch_length dbB files⟩
  · rw [ho3]
  · rw [ho3]
  · rw [ho3]; exact insert_store_receipts db0 h
  · rw [ho3]; exact insert_store_products db0 h

/-- C9 witness: the amended theorem at four concrete failing runs over an
empty database and an empty batch. -/
theorem c9_witness :
    process_receipt_file dbEmpty "f.json" exHeader [exProduct]
        { oClean with jsonMalformed := true } =
      ⟨dbEmpty, Option.none, .rejected, "f.json"⟩ ∧
    process_receipt_file dbEmpty "f.json" exHeader [exProduct]
        { oClean with fileUnreadable := true } =
      ⟨dbEmpty, Option.none, .rejected, "f.json"⟩ ∧
    (process_receipt_file dbEmpty "f.json" exHeader [exProduct]
        { oClean with productsRaise := true }).dest = FileDest.rejected ∧
    (process_receipt_file dbEmpty "f.json" exHeader [exProduct]
        { oClean with productsRaise := true }).ret = Option.none ∧
    (process_receipt_file dbEmpty "f.json" exHeader [exProduct]
        { oClean with productsRaise := true }).db.receipts = dbEmpty.receipts ∧
    (process_receipt_file dbEmpty "f.json" exHeader [exProduct]
        { oClean with productsRaise := true }).db.products = dbEmpty.products ∧
    process_receipt_file dbEmpty "f.json" exHeader [exProduct]
        { oClean with receiptRaises := true } =
      ⟨(insert_store dbEmpty exHeader).1, Option.none, .parsed, "f.json"⟩ ∧
    (processBatch dbEmpty []).2.length = ([] :
      List (String × HeaderInfo × List RawProduct × FileOracle)).length :=
  c9_fatal_error_routing dbEmpty "f.json" exHeader [exProduct] "Karta456" 1
    { oClean with jsonMalformed := true } { oClean with fileUnreadable := true }
    { oClean with productsRaise := true } { oClean with receiptRaises := true }
    dbEmpty [] rfl rfl rfl rfl rfl rfl (by decide) rfl (by decide) (by decide)
    rfl rfl rfl rfl rfl (by decide) rfl

/-! ## Claim C10 -/

/-- C10: `is_duplicate_receipt` returns False when the query raises or when
any of the date, time or final-price fields is missing; the pipeline then
proceeds to insert the receipt — even when a stored receipt matches the
loose-duplicate triple — rather than skipping it. -/
theorem c10_duplicate_check_failsafe
    (receipts : List ReceiptRow) (qb : Bool) (dOpt tOpt : Option String)
    (fOpt : Option ℚ) (dd tt : String) (ff : ℚ)
    (db0 : DB) (name : String) (h : HeaderInfo) (pn : String) (uid : ℕ)
    (o : FileOracle)
    (h1 : o.fileUnreadable = false) (h2 : o.jsonMalformed = false)
    (hp : o.payment = .assigned pn uid) (hs : o.storeRaises = false)
    (hdr : o.dupRaises = true) (hrr : o.receiptRaises = false)
    (hkey : db0.receipts.filter (receiptKeyMatch (insert_store db0 h).2 h) = []) :
    is_duplicate_receipt receipts true (some dd) (some tt) (some ff) = false ∧
    is_duplicate_receipt receipts qb Option.none tOpt fOpt = false ∧
    is_duplicate_receipt receipts qb dOpt Option.none fOpt = false ∧
    is_duplicate_receipt receipts qb dOpt tOpt Option.none = false ∧
    process_receipt_file db0 name h [] o =
      ⟨{ (insert_store db0 h).1 with
          receipts := db0.receipts ++
            [{ receipt_id := freshReceiptId db0.receipts,
               store_id := (insert_store db0 h).2,
               receipt_number := h.receipt_number, rdate := h.date,
               rtime := h.time, final_price := h.final_price,
               total_discounts := h.total_discounts, payment_name := pn,
               not_our_receipt := o.notOur }] },
        some (freshReceiptId db0.receipts), .parsed, name⟩ := by
  have hdup : is_duplicate_receipt db0.receipts o.dupRaises
      (some h.date) (some h.time) (some h.final_price) = false := by
    rw [hdr]; exact is_duplicate_raises _ _ _ _
  refine ⟨is_duplicate_raises receipts dd tt ff, rfl, ?_, ?_,
    process_insert_success db0 name h pn uid o h1 h2 hp hs hdup hrr hkey⟩
  · rcases dOpt with _ | dv <;> rfl
  · rcases dOpt with _ | dv <;> rcases tOpt with _ | tv <;> rfl

/-- C10 witness: the theorem at a database already holding a receipt with the
same loose-duplicate triple — the insert still happens when the duplicate
query raises. -/
theorem c10_witness :
    is_duplicate_receipt [exOldReceipt] true (some "2024-07-01")
      (some "12:00:00") (some 100) = false ∧
    is_duplicate_receipt [exOldReceipt] true Option.none (some "x")
      (some (5 : ℚ)) = false ∧
    is_duplicate_receipt [exOldReceipt] true (some "x") Option.none
      (some (5 : ℚ)) = false ∧
    is_duplicate_receipt [exOldReceipt] true (some "x") (some "y")
      Option.none = false ∧
    process_receipt_file dbWithTriple "r3.json" exHeader []
        { oClean with dupRaises := true } =
      ⟨{ (insert_store dbWithTriple exHeader).1 with
          receipts := dbWithTriple.receipts ++
            [{ receipt_id := freshReceiptId dbWithTriple.receipts,
               store_id := (insert_store dbWithTriple exHeader).2,
               receipt_number := exHeader.receipt_number,
               rdate := exHeader.date, rtime := exHeader.time,
               final_price := exHeader.final_price,
               total_discounts := exHeader.total_discounts,
               payment_name := "Karta456",
               not_our_receipt := ({ oClean with dupRaises := true } :
                 FileOracle).notOur }] },
        some (freshReceiptId dbWithTriple.receipts), .parsed, "r3.json"⟩ :=
  c10_duplicate_check_failsafe [exOldReceipt] true (some "x") (some "y")
    (some (5 : ℚ)) "2024-07-01" "12:00:00" 100 dbWithTriple "r3.json"
    exHeader "Karta456" 1 { oClean with dupRaises := true } rfl rfl rfl rfl
    rfl rfl (by decide)

end FM
